import Mathlib

/-!
Shallow embedding of the GitHub search crawler (src/crawlers.py, src/utils.py,
src/settings.py, src/items.py, src/exceptions.py) and proofs about it.

Python values are modelled as follows: JSON documents and item dicts as the
`Json` inductive; exceptions as the `CrawlErr` inductive carried in `Except`;
machine-level collaborators (the HTTP transport, BeautifulSoup, the RNG) as
explicit function parameters, per the capability contracts named in the spec.
-/

set_option maxRecDepth 4000

/-- JSON values as used by this program: every value the crawler reads or
writes is a string, an array, or a string-keyed object. -/
inductive Json where
  | str : String → Json
  | arr : List Json → Json
  | obj : List (String × Json) → Json

/-- Exceptions raised by the crawler. `RequestProcessError` and
`InvalidSearchType` come from src/exceptions.py; `schemaViolation` models
jsonschema.exceptions.ValidationError; the rest model the Python builtins
(FileNotFoundError, PermissionError, IsADirectoryError, AttributeError,
ValueError, KeyError) that the code can raise. -/
inductive CrawlErr where
  | schemaViolation
  | invalidSearchType (value : Json)
  | requestProcessError (msg : String)
  | fileNotFound (msg : String)
  | permissionError
  | isADirectoryError
  | attributeError
  | valueError
  | keyError

/-- Helper: is `n` a prefix of some suffix of the second list? -/
def containsAux (n : List Char) : List Char → Bool
  | [] => n.isPrefixOf []
  | h :: t => n.isPrefixOf (h :: t) || containsAux n t

/-- Python `needle in haystack` on strings: substring containment. -/
def strContains (hay needle : String) : Bool :=
  containsAux needle.data hay.data

/-- `s.startswith(p)` over the character data (used by the urljoin model). -/
def strStartsWith (s p : String) : Bool :=
  p.data.isPrefixOf s.data

/-- The whitespace characters Python `str.strip()` removes (ASCII range,
which is all this program ever strips). -/
def pyWhitespace (c : Char) : Bool :=
  c == ' ' || c == '\t' || c == '\n' || c == '\r' || c == '\x0b' || c == '\x0c'

/-- Python `str.strip()`: drop whitespace from both ends. -/
def pyStrip (s : String) : String :=
  String.mk (((s.data.dropWhile pyWhitespace).reverse.dropWhile pyWhitespace).reverse)

/-- Python `s.lower()`: ASCII case folding per character. -/
def pyLower (s : String) : String :=
  String.mk (s.data.map Char.toLower)

/-- Python `c in s` for a single character. -/
def strContainsChar (s : String) (c : Char) : Bool :=
  s.data.any (fun d => d == c)

/-- Python `s.replace(old, new)` for a one-character pattern (the only form
this program uses: `'%'` → `''` and `' '` → `'+'`): every occurrence of the
character is replaced by `new`. -/
def pyReplaceChar (s : String) (old : Char) (new : String) : String :=
  String.join (s.data.map (fun c => if c == old then new else String.singleton c))

/-- Helper for `pySplitChar`: accumulate the current field (reversed) and
cut at each separator. -/
def splitOnCharAux (sep : Char) : List Char → List Char → List (List Char)
  | [], acc => [acc.reverse]
  | c :: rest, acc =>
    if c == sep then acc.reverse :: splitOnCharAux sep rest []
    else splitOnCharAux sep rest (c :: acc)

/-- Python `s.split(sep)` for a one-character separator (the only form this
program uses: `'\n'` and `'/'`): splits at every occurrence, keeping empty
fields. -/
def pySplitChar (s : String) (sep : Char) : List String :=
  (splitOnCharAux sep s.data []).map String.mk

-- src/settings.py
def HOST : String := "https://github.com"

def SUPPORTED_GITHUB_TYPES : List String := ["Repositories", "Issues", "Wikis"]

def PARAMS_FILE_PATH : String := "resources/parameters.json"

def OUTPUT_FILE_PATH : String := "resources/output.json"

/-- Model of `urllib.parse.urljoin`, restricted to the shapes this program
uses: the base is the fixed absolute URL `HOST` (scheme `https`, authority
`github.com`, empty path), and the reference is either an absolute URL or a
path-plus-query reference. With an empty base path, RFC 3986 merging yields
`scheme://authority/<reference>` (the reference replaces the path when it
starts with `/`). -/
def urljoin (base rel : String) : String :=
  if strStartsWith rel "https://" || strStartsWith rel "http://" then rel
  else if strStartsWith rel "/" then base ++ rel
  else base ++ "/" ++ rel

/-- UTF-8 bytes (as Nats) of one character, per the standard encoding. -/
def utf8Bytes (c : Char) : List Nat :=
  let n := c.toNat
  if n < 0x80 then [n]
  else if n < 0x800 then
    [0xC0 ||| (n >>> 6), 0x80 ||| (n &&& 0x3F)]
  else if n < 0x10000 then
    [0xE0 ||| (n >>> 12), 0x80 ||| ((n >>> 6) &&& 0x3F), 0x80 ||| (n &&& 0x3F)]
  else
    [0xF0 ||| (n >>> 18), 0x80 ||| ((n >>> 12) &&& 0x3F),
     0x80 ||| ((n >>> 6) &&& 0x3F), 0x80 ||| (n &&& 0x3F)]

/-- The bytes `urllib.parse.quote` never encodes: ASCII letters, digits, and
`_`, `.`, `-`, `~`. -/
def alwaysSafeByte (b : Nat) : Bool :=
  (0x41 ≤ b && b ≤ 0x5A) || (0x61 ≤ b && b ≤ 0x7A) || (0x30 ≤ b && b ≤ 0x39)
    || b == 0x5F || b == 0x2E || b == 0x2D || b == 0x7E

/-- One uppercase hex digit. -/
def hexDigit (n : Nat) : Char :=
  "0123456789ABCDEF".data.getD n '0'

/-- `%XX` escape of one byte, uppercase hex as in urllib. -/
def percentEscape (b : Nat) : String :=
  String.mk ['%', hexDigit (b / 16), hexDigit (b % 16)]

/-- Model of `urllib.parse.quote(s, safe)`: the string is UTF-8 encoded and
each byte is kept if it is always-safe or listed in `safe` (only ASCII bytes
can be safe), else `%XX`-escaped. -/
def pyQuote (s : String) (safe : String) : String :=
  let safeBytes := safe.data.map Char.toNat
  String.join ((s.data.flatMap utf8Bytes).map (fun b =>
    if alwaysSafeByte b || safeBytes.contains b then String.singleton (Char.ofNat b)
    else percentEscape b))

/-- Model of `urllib.parse.quote_plus(s, safe)`: when the string contains a
space, quote with space added to `safe` and then turn spaces into `+`;
otherwise plain `quote`. -/
def pyQuotePlus (s : String) (safe : String) : String :=
  if strContainsChar s ' ' then pyReplaceChar (pyQuote s (safe ++ " ")) ' ' "+"
  else pyQuote s safe

/-- Model of `urllib.parse.urlencode(params, safe)` on an ordered mapping:
each key and value is quoted via `quote_plus` with the given `safe`
characters, joined as `k=v` pairs with `&`. -/
def pyUrlencode (params : List (String × String)) (safe : String) : String :=
  String.intercalate "&" (params.map (fun kv =>
    pyQuotePlus kv.1 safe ++ "=" ++ pyQuotePlus kv.2 safe))

/-- src/crawlers.py `GithubSearchCrawler.search_url`: query params are
`q = '+'.join(keywords)` and `type = type.lower()`, urlencoded with
`safe='+'`, and the result is `'search?' + query` joined against `HOST`. -/
def search_url (keywords : List String) (type_ : String) : String :=
  let query := pyUrlencode
    [("q", String.intercalate "+" keywords), ("type", pyLower type_)] "+"
  urljoin HOST ("search?" ++ query)

/-- One `<a>` element of the parsed search page (BeautifulSoup is an external
collaborator; the strained soup is modelled as the list of its anchor tags in
page order, each carrying the attributes the crawler queries). -/
structure Anchor where
  classes : List String
  href : Option String
  dataHydroClick : Option String

/-- One element of a parsed repository detail page, carrying the attributes
`get_extras` queries (`rel`, `data-ga-click`) and its text. -/
structure Element where
  rel : Option String
  dataGaClick : Option String
  text : String

/-- src/items.py `GithubSearchItem.__post_init__`: the stored url is the
input resolved against `HOST`. -/
def githubSearchItemUrl (url : String) : String :=
  urljoin HOST url

/-- src/items.py `GithubSearchItem` serialized by `to_dict()`:
`{'url': ..., 'extras': ...}` in field order. -/
def itemToDict (resolvedUrl : String) (extras : Json) : Json :=
  .obj [("url", .str resolvedUrl), ("extras", extras)]

/-- src/crawlers.py `match_condition` inside
`parse_data_hydro_click_elements`: the anchor has an `href`, has a
`data-hydro-click` attribute, and that attribute's value contains the
substring `search_result.click`. -/
def match_condition (a : Anchor) : Bool :=
  a.href.isSome && a.dataHydroClick.isSome
    && strContains (a.dataHydroClick.getD "") "search_result.click"

/-- src/crawlers.py `parse_data_hydro_click_elements`: filter the anchors by
`match_condition`, then append one item dict per surviving anchor to the
item collection, in order.  `link['href']` is guarded by the filter, so the
`getD` default is never hit. -/
def parse_data_hydro_click_elements (data : List Anchor) (items : List Json) : List Json :=
  let links := data.filter match_condition
  links.foldl (fun acc link =>
    acc ++ [itemToDict (githubSearchItemUrl (link.href.getD "")) (.obj [])]) items

/-- The item dict the hydro-click path builds from one anchor. -/
def hydroItemOf (a : Anchor) : Json :=
  itemToDict (githubSearchItemUrl (a.href.getD "")) (.obj [])

/-- Python `d[k]` / `k in d` lookup on a JSON object (first match; a Python
dict cannot hold duplicate keys, so first-match is exact). Non-objects have
no keys. -/
def pyGetItem (j : Json) (k : String) : Option Json :=
  match j with
  | .obj kvs => (kvs.find? (fun kv => kv.1 = k)).map (fun kv => kv.2)
  | _ => none

/-- Is a JSON value a string? (`{'type': 'string'}` in the schema). -/
def isJsonStr (j : Json) : Bool :=
  match j with
  | .str _ => true
  | _ => false

/-- src/settings.py `PARAMS_SCHEMA` checked per jsonschema semantics: the
instance is an object; `keywords` and `type` are required; `keywords`, when
present, is an array of strings with at least one element; `proxies`, when
present, is an array of strings; `type`, when present, is a string.
`properties` entries only constrain keys that are present; extra keys are
allowed. -/
def checkSchema (j : Json) : Bool :=
  match j with
  | .obj _ =>
    (pyGetItem j "keywords").isSome && (pyGetItem j "type").isSome
    && (match pyGetItem j "keywords" with
        | some (.arr xs) => decide (1 ≤ xs.length) && xs.all isJsonStr
        | some _ => false
        | none => true)
    && (match pyGetItem j "proxies" with
        | some (.arr xs) => xs.all isJsonStr
        | some _ => false
        | none => true)
    && (match pyGetItem j "type" with
        | some v => isJsonStr v
        | none => true)
  | _ => false

/-- src/crawlers.py `GithubSearchCrawler.validate_params`: first validate the
document against `PARAMS_SCHEMA` (jsonschema raises ValidationError,
modelled `schemaViolation`), then check that `params['type']` is one of
`SUPPORTED_GITHUB_TYPES`, raising `InvalidSearchType` otherwise. A
non-string value is unequal to every entry of the tuple of strings, hence
also rejected (that branch is unreachable after schema validation). -/
def validate_params (j : Json) : Except CrawlErr Unit :=
  if checkSchema j then
    match pyGetItem j "type" with
    | some (.str t) =>
        if SUPPORTED_GITHUB_TYPES.contains t then .ok ()
        else .error (.invalidSearchType (.str t))
    | some v => .error (.invalidSearchType v)
    | none => .error .keyError
  else .error .schemaViolation

/-- src/crawlers.py `GithubSearchCrawler.proxy`: with a non-empty proxy list
the selected proxy is `https://` ++ a random element, else None.
`random.choice` draws a uniform index below the length from the external
RNG; the drawn index is the explicit `choice` argument here, totalized by
reduction modulo the length. -/
def proxy (proxies : List String) (choice : Nat) : Option String :=
  if proxies.isEmpty then none
  else some ("https://" ++ proxies.getD (choice % proxies.length) "")

/-- The aiohttp client session, reduced to the one observable the code
queries: its `closed` flag. `ClientSession()` starts open. -/
structure Session where
  closed : Bool

/-- src/crawlers.py `GithubSearchCrawler.setup`: acquires a fresh (open)
client session. -/
def setup : Session :=
  { closed := false }

/-- src/crawlers.py `GithubSearchCrawler.close`: closes the session only
when it is not already closed. -/
def close (s : Session) : Session :=
  if !s.closed then { s with closed := true } else s

/-- One `d[k] = v` step of Python dict construction: overwrite in place if
the key exists, else append. -/
def dictUpdate (d : List (String × String)) (k v : String) : List (String × String) :=
  if d.any (fun p => p.1 == k) then d.map (fun p => if p.1 == k then (k, v) else p)
  else d ++ [(k, v)]

/-- Python `dict(pairs)`: insertion-ordered mapping built left to right. -/
def pyDict (l : List (String × String)) : List (String × String) :=
  l.foldl (fun d kv => dictUpdate d kv.1 kv.2) []

/-- One language-stat element processed as in `get_extras`:
`stat.text.strip().replace('%', '').split('\n')`; `dict(...)` raises
ValueError unless the split yields exactly two parts. -/
def splitStat (e : Element) : Except CrawlErr (String × String) :=
  match pySplitChar (pyReplaceChar (pyStrip e.text) '%' "") '\n' with
  | [k, v] => .ok (k, v)
  | _ => .error .valueError

/-- The ordered key-value pairs fed to `dict(...)` in `get_extras`, failing
at the first element whose split is not a pair. -/
def langPairs : List Element → Except CrawlErr (List (String × String))
  | [] => .ok []
  | e :: rest =>
    match splitStat e with
    | .error err => .error err
    | .ok kv =>
      match langPairs rest with
      | .error err => .error err
      | .ok ps => .ok (kv :: ps)

/-- src/crawlers.py `GithubSearchCrawler.get_extras`: parse the detail page
(BeautifulSoup modelled by `parseDetail`), take the stripped text of the
first element with `rel="author"` as the owner (`.text` on a missing
element raises AttributeError), collect the elements having a
`data-ga-click` attribute whose value contains `"stats"`, and build the
language-stats dict from their texts. -/
def get_extras (parseDetail : String → List Element) (text : String) :
    Except CrawlErr Json :=
  let soup := parseDetail text
  match soup.find? (fun e => e.rel == some "author") with
  | none => .error .attributeError
  | some authorEl =>
    let owner := pyStrip authorEl.text
    let language_elements := (soup.filter (fun l => l.dataGaClick.isSome)).filter
      (fun l => strContains (l.dataGaClick.getD "") "stats")
    match langPairs language_elements with
    | .error e => .error e
    | .ok pairs =>
      .ok (.obj [("owner", .str owner),
        ("language_stats", .obj ((pyDict pairs).map (fun kv => (kv.1, Json.str kv.2))))])

/-- The search-page anchors `parse_repositories` iterates:
`find_all(attrs={'class': 'v-align-middle'}, href=True)`. -/
def repoLinkFilter (a : Anchor) : Bool :=
  a.classes.contains "v-align-middle" && a.href.isSome

/-- The item dict the repository path builds from one link when its
enrichment fetch and extraction succeed. -/
def repoItemOf (fetch : String → String) (parseDetail : String → List Element)
    (a : Anchor) : Json :=
  let url := githubSearchItemUrl (a.href.getD "")
  itemToDict url ((get_extras parseDetail (fetch url)).toOption.getD (.obj []))

/-- The loop body of `parse_repositories`: for each link, in page order,
build the item (URL resolved against `HOST`), fetch its detail page, run
`get_extras` on it, and append the enriched item dict. Each iteration
awaits its fetch before the next link is touched; an extraction error
aborts the whole loop. -/
def parseReposGo (fetch : String → String) (parseDetail : String → List Element) :
    List Anchor → List Json → Except CrawlErr (List Json)
  | [], items => .ok items
  | a :: rest, items =>
    let url := githubSearchItemUrl (a.href.getD "")
    let text := fetch url
    match get_extras parseDetail text with
    | .error e => .error e
    | .ok extras => parseReposGo fetch parseDetail rest (items ++ [itemToDict url extras])

/-- src/crawlers.py `GithubSearchCrawler.parse_repositories`. -/
def parse_repositories (fetch : String → String) (parseDetail : String → List Element)
    (data : List Anchor) (items : List Json) : Except CrawlErr (List Json) :=
  parseReposGo fetch parseDetail (data.filter repoLinkFilter) items

/-- The filesystem as the output writer observes it: existing directories,
existing files with their contents, and per-path writability. -/
structure FS where
  dirs : List String
  files : List (String × String)
  writable : String → Bool

def fileExists (fs : FS) (p : String) : Bool :=
  fs.files.any (fun q => q.1 == p)

def dirExists (fs : FS) (p : String) : Bool :=
  fs.dirs.contains p

/-- Python `os.path.exists`: true for files and directories alike. -/
def osPathExists (fs : FS) (p : String) : Bool :=
  fileExists fs p || dirExists fs p

def updateAssoc (l : List (String × String)) (k v : String) : List (String × String) :=
  l.map (fun p => if p.1 == k then (k, v) else p)

def lookupFile (fs : FS) (p : String) : Option String :=
  (fs.files.find? (fun q => q.1 == p)).map (fun q => q.2)

/-- Directory component of a relative or absolute path (the part before the
last `/`; `.` for a bare filename). -/
def parentDir (p : String) : String :=
  let parts := pySplitChar p '/' 
  if parts.length ≤ 1 then "." else String.intercalate "/" parts.dropLast

/-- Python truthiness of the optional `file_path` argument: `None` and the
empty string are falsy. -/
def pyTruthyStr (new : Option String) : Bool :=
  match new with
  | some p => p != ""
  | none => false

/-- src/utils.py `_resolve_default_path`: a truthy `new` path is returned if
it exists (else FileNotFoundError); otherwise the default path is returned
if it exists (else FileNotFoundError with the longer message). -/
def _resolve_default_path (default : String) (new : Option String) (fs : FS) :
    Except CrawlErr String :=
  if pyTruthyStr new then
    if osPathExists fs (new.getD "") then .ok (new.getD "")
    else .error (.fileNotFound ("File " ++ new.getD "" ++ " does not exist"))
  else
    if osPathExists fs default then .ok default
    else .error (.fileNotFound
      ("File " ++ default ++ " does not exist. Please provide a valid path"))

/-- The path `write_items` actually writes to, given its optional argument:
the resolved-path target of `_resolve_default_path`. -/
def targetPath (file_path : Option String) (default : String) : String :=
  if pyTruthyStr file_path then file_path.getD "" else default

/-- OS semantics of `open(path, 'w+')` followed by writing `content`:
error if the path is an existing directory; truncate and overwrite an
existing writable file (PermissionError if unwritable); otherwise create
the file, which needs an existing, writable parent directory. -/
def writeFileWPlus (fs : FS) (p : String) (content : String) : Except CrawlErr FS :=
  if dirExists fs p then .error .isADirectoryError
  else if fileExists fs p then
    if fs.writable p then .ok { fs with files := updateAssoc fs.files p content }
    else .error .permissionError
  else if !(dirExists fs (parentDir p)) then
    .error (.fileNotFound ("No such file or directory: " ++ p))
  else if fs.writable (parentDir p) then
    .ok { fs with files := fs.files ++ [(p, content)] }
  else .error .permissionError

/-- Number of spaces for one `json.dumps(..., indent=4)` level. -/
def padIndent (lvl : Nat) : String :=
  String.mk (List.replicate (4 * lvl) ' ')

/-- JSON string escaping for the characters this program can emit. -/
def escapeJsonChar (c : Char) : String :=
  if c = '"' then "\\\"" else if c = '\\' then "\\\\"
  else if c = '\n' then "\\n" else if c = '\t' then "\\t" else if c = '\r' then "\\r"
  else String.singleton c

def escapeJson (s : String) : String :=
  String.join (s.data.map escapeJsonChar)

mutual

/-- Model of `json.dumps(value, indent=4)` at one nesting level. -/
def dumpsVal : Json → Nat → String
  | .str s, _ => "\"" ++ escapeJson s ++ "\""
  | .arr [], _ => "[]"
  | .arr (x :: xs), lvl =>
      "[\n" ++ dumpsItems (x :: xs) (lvl + 1) ++ "\n" ++ padIndent lvl ++ "]"
  | .obj [], _ => "\x7b\x7d"
  | .obj (kv :: kvs), lvl =>
      "\x7b\n" ++ dumpsPairs (kv :: kvs) (lvl + 1) ++ "\n" ++ padIndent lvl ++ "\x7d"

/-- Array elements, one per line, separated by `,\n`. -/
def dumpsItems : List Json → Nat → String
  | [], _ => ""
  | [x], lvl => padIndent lvl ++ dumpsVal x lvl
  | x :: y :: rest, lvl =>
      padIndent lvl ++ dumpsVal x lvl ++ ",\n" ++ dumpsItems (y :: rest) lvl

/-- Object members, one per line, `"key": value`, separated by `,\n`. -/
def dumpsPairs : List (String × Json) → Nat → String
  | [], _ => ""
  | [kv], lvl => padIndent lvl ++ "\"" ++ escapeJson kv.1 ++ "\": " ++ dumpsVal kv.2 lvl
  | kv :: kv2 :: rest, lvl =>
      padIndent lvl ++ "\"" ++ escapeJson kv.1 ++ "\": " ++ dumpsVal kv.2 lvl ++ ",\n"
        ++ dumpsPairs (kv2 :: rest) lvl

end

/-- `json.dumps(x, indent=4)` at top level. -/
def json_dumps_indent4 (j : Json) : String :=
  dumpsVal j 0

/-- src/utils.py `write_items`: resolve the destination (default
`OUTPUT_FILE_PATH`), then open it `'w+'` and write the pretty-printed JSON
serialization of the item list. -/
def write_items (items : List Json) (file_path : Option String) (fs : FS) :
    Except CrawlErr FS :=
  match _resolve_default_path OUTPUT_FILE_PATH file_path fs with
  | .error e => .error e
  | .ok path => writeFileWPlus fs path (json_dumps_indent4 (.arr items))

/-- The 200 branch of src/crawlers.py `GithubSearchCrawler.process`: route
the parsed anchor soup by search type (the `coro` dispatch dict; a type
outside it would raise KeyError), run the chosen parser, then flush the
collected items with `write_items`. The second component is the resulting
filesystem; on an error it is the input filesystem, unchanged. -/
def processSuccess (type_ : String) (soup : List Anchor) (fetch : String → String)
    (parseDetail : String → List Element) (fs : FS) (items : List Json) :
    Except CrawlErr (List Json) × FS :=
  let routed : Except CrawlErr (List Json) :=
    match type_ with
    | "Repositories" => parse_repositories fetch parseDetail soup items
    | "Issues" => .ok (parse_data_hydro_click_elements soup items)
    | "Wikis" => .ok (parse_data_hydro_click_elements soup items)
    | _ => .error .keyError
  match routed with
  | .error e => (.error e, fs)
  | .ok items2 =>
    match write_items items2 none fs with
    | .error e => (.error e, fs)
    | .ok fs2 => (.ok items2, fs2)

/-- src/crawlers.py `GithubSearchCrawler.process`: issue the search request
(the HTTP response is the explicit `resp` argument, per the transport
contract); on status 200 parse the body text into the anchor soup and
continue, otherwise raise `RequestProcessError` with the status in its
message, which aborts the run before anything is written. -/
def process (type_ : String) (resp : Nat × String) (parseSearch : String → List Anchor)
    (fetch : String → String) (parseDetail : String → List Element) (fs : FS)
    (items : List Json) : Except CrawlErr (List Json) × FS :=
  if resp.1 = 200 then processSuccess type_ (parseSearch resp.2) fetch parseDetail fs items
  else (.error (.requestProcessError ("Bad response status: " ++ toString resp.1)), fs)

theorem checkSchema_fails_of_missing (kvs : List (String × Json))
    (h : pyGetItem (.obj kvs) "keywords" = none
        ∨ pyGetItem (.obj kvs) "type" = none
        ∨ pyGetItem (.obj kvs) "keywords" = some (.arr [])) :
    checkSchema (.obj kvs) = false := by
  rcases h with h | h | h
  · simp [checkSchema, h]
  · simp [checkSchema, h]
  · simp [checkSchema, h]

/-- C2: a document missing `keywords` or `type`, or whose `keywords` is the
empty array, is rejected with a schema violation (the domain check never
runs there); a schema-valid document whose `type` is not in
{Repositories, Issues, Wikis} is rejected with `InvalidSearchType`; a
schema-valid document with an allowed `type` validates without error. -/
theorem validate_params_spec (kvs : List (String × Json)) :
    ((pyGetItem (.obj kvs) "keywords" = none
        ∨ pyGetItem (.obj kvs) "type" = none
        ∨ pyGetItem (.obj kvs) "keywords" = some (.arr []))
      → validate_params (.obj kvs) = .error .schemaViolation)
    ∧ (∀ t : String, checkSchema (.obj kvs) = true
        → pyGetItem (.obj kvs) "type" = some (.str t)
        → (t ∉ SUPPORTED_GITHUB_TYPES
              → validate_params (.obj kvs) = .error (.invalidSearchType (.str t)))
          ∧ (t ∈ SUPPORTED_GITHUB_TYPES
              → validate_params (.obj kvs) = .ok ())) := by
  constructor
  · intro h
    have hf := checkSchema_fails_of_missing kvs h
    simp [validate_params, hf]
  · intro t hs ht
    constructor
    · intro hnotin
      simp [validate_params, hs, ht, hnotin]
    · intro hin
      simp [validate_params, hs, ht, hin]

/-- Witness for C2 at concrete documents: `{"type": "Repositories"}` (missing
`keywords`) is a schema violation; `{"keywords": ["a"], "type": "Gists"}` is
an invalid search type; `{"keywords": ["a"], "type": "Repositories"}`
validates. -/
theorem validate_params_spec_witness :
    validate_params (.obj [("type", .str "Repositories")])
        = .error .schemaViolation
    ∧ validate_params (.obj [("keywords", .arr [.str "a"]), ("type", .str "Gists")])
        = .error (.invalidSearchType (.str "Gists"))
    ∧ validate_params (.obj [("keywords", .arr [.str "a"]), ("type", .str "Repositories")])
        = .ok () := by
  refine ⟨?_, ?_, ?_⟩
  · exact (validate_params_spec [("type", .str "Repositories")]).1 (Or.inl rfl)
  · exact ((validate_params_spec
      [("keywords", .arr [.str "a"]), ("type", .str "Gists")]).2
        "Gists" rfl rfl).1 (by decide)
  · exact ((validate_params_spec
      [("keywords", .arr [.str "a"]), ("type", .str "Repositories")]).2
        "Repositories" rfl rfl).2 (by decide)

theorem foldl_append_singleton {α β : Type} (f : α → β) :
    ∀ (l : List α) (init : List β),
      l.foldl (fun acc x => acc ++ [f x]) init = init ++ l.map f := by
  intro l
  induction l with
  | nil => intro init; simp
  | cons a t ih =>
      intro init
      simp only [List.foldl_cons, List.map_cons, ih]
      simp

/-- C4: the Issue/Wiki extractor produces exactly one item per anchor that
has both an `href` and a click-tracking attribute containing
`search_result.click`, in page order; and on the concrete page
[A(tracked), B(untracked), C(tracked)] the output is exactly [A, C]. -/
theorem hydro_click_extraction_order :
    (∀ (data : List Anchor) (items : List Json),
      parse_data_hydro_click_elements data items
        = items ++ (data.filter match_condition).map hydroItemOf)
    ∧ parse_data_hydro_click_elements
        [⟨[], some "/a", some "x search_result.click y"⟩,
         ⟨[], some "/b", none⟩,
         ⟨[], some "/c", some "search_result.click"⟩] []
      = [itemToDict "https://github.com/a" (.obj []),
         itemToDict "https://github.com/c" (.obj [])] := by
  constructor
  · intro data items
    unfold parse_data_hydro_click_elements
    exact foldl_append_singleton hydroItemOf (data.filter match_condition) items
  · rfl

/-- C6: for every validated config the search URL equals the fixed host
`https://github.com` with path `search`, query parameter `q` set to the
keywords joined by `+` and percent-encoded keeping `+` unescaped
(`quote_plus` with `safe='+'`), and query parameter `type` set to the
percent-encoded lower-cased type; and the construction is deterministic:
equal keywords and type always yield the same URL string. -/
theorem search_url_spec :
    (∀ (keywords : List String) (type_ : String),
      search_url keywords type_
        = "https://github.com/search?q="
          ++ (pyQuotePlus (String.intercalate "+" keywords) "+"
            ++ ("&type=" ++ pyQuotePlus (pyLower type_) "+")))
    ∧ (∀ (k1 k2 : List String) (t1 t2 : String),
        k1 = k2 → t1 = t2 → search_url k1 t1 = search_url k2 t2) := by
  constructor
  · intro ks t
    have h1 : search_url ks t
        = "https://github.com/"
          ++ ("search?"
            ++ ((("q=" ++ pyQuotePlus (String.intercalate "+" ks) "+") ++ "&")
              ++ ("type=" ++ pyQuotePlus (pyLower t) "+"))) := rfl
    rw [h1,
      String.append_assoc ("q=" ++ pyQuotePlus (String.intercalate "+" ks) "+") "&"
        ("type=" ++ pyQuotePlus (pyLower t) "+"),
      String.append_assoc "q=" (pyQuotePlus (String.intercalate "+" ks) "+")
        ("&" ++ ("type=" ++ pyQuotePlus (pyLower t) "+"))]
    rfl
  · intro k1 k2 t1 t2 hk ht
    rw [hk, ht]

/-- Witness for C6: concrete keywords `["rust", "web"]` with type
`Repositories` produce exactly the expected URL, and determinism holds at
that input. -/
theorem search_url_spec_witness :
    search_url ["rust", "web"] "Repositories"
        = "https://github.com/search?q=rust+web&type=repositories"
    ∧ search_url ["rust", "web"] "Repositories"
        = search_url ["rust", "web"] "Repositories" := by
  constructor
  · rw [search_url_spec.1 ["rust", "web"] "Repositories"]
    rfl
  · exact search_url_spec.2 ["rust", "web"] ["rust", "web"]
      "Repositories" "Repositories" rfl rfl

/-- C1: a non-200 response makes `process` fail with `RequestProcessError`
whose message carries the status code, returning the filesystem unchanged
(no output file written); a 200 response continues with the body text
handed to the HTML parser. -/
theorem process_response_status_spec :
    ∀ (type_ : String) (resp : Nat × String) (parseSearch : String → List Anchor)
      (fetch : String → String) (parseDetail : String → List Element) (fs : FS)
      (items : List Json),
      (resp.1 ≠ 200 →
        process type_ resp parseSearch fetch parseDetail fs items
          = (.error (.requestProcessError ("Bad response status: " ++ toString resp.1)), fs))
      ∧ (resp.1 = 200 →
        process type_ resp parseSearch fetch parseDetail fs items
          = processSuccess type_ (parseSearch resp.2) fetch parseDetail fs items) := by
  intro type_ resp parseSearch fetch parseDetail fs items
  constructor
  · intro h
    simp [process, h]
  · intro h
    simp [process, h]

/-- Witness for C1: a dispatch receiving HTTP 503 aborts with
`RequestProcessError` carrying 503 and leaves the filesystem unchanged. -/
theorem process_response_status_spec_witness :
    process "Repositories" (503, "body") (fun _ => []) (fun _ => "") (fun _ => [])
        ⟨["resources"], [], fun _ => true⟩ []
      = (.error (.requestProcessError "Bad response status: 503"),
          ⟨["resources"], [], fun _ => true⟩) :=
  (process_response_status_spec "Repositories" (503, "body") (fun _ => []) (fun _ => "")
    (fun _ => []) ⟨["resources"], [], fun _ => true⟩ []).1 (by decide)

/-- C9: `close` is idempotent — a second (and any later) call is a no-op —
and after `setup` acquires the transport, `close` leaves the session in the
closed state. -/
theorem close_idempotent :
    (∀ s : Session, close (close s) = close s)
    ∧ (close setup).closed = true
    ∧ close (close setup) = close setup := by
  refine ⟨?_, rfl, rfl⟩
  intro s
  cases s with
  | mk c => cases c <;> rfl

/-- C5: on a search page with one result link `/alice/repo` whose detail
page has author `alice` and two language-stat elements with texts
`"Go\n80%"` and `"Python\n20%"` (elements whose `data-ga-click` value
contains `"stats"`), repository extraction produces one item with the URL
resolved against the host, `owner = "alice"` and
`language_stats = {"Go": "80", "Python": "20"}`. -/
theorem repository_extraction_example :
    get_extras
        (fun _ => [⟨some "author", none, "alice"⟩,
          ⟨none, some "repo stats language", "Go\n80%"⟩,
          ⟨none, some "repo stats language", "Python\n20%"⟩]) "detail"
      = .ok (.obj [("owner", .str "alice"),
          ("language_stats", .obj [("Go", .str "80"), ("Python", .str "20")])])
    ∧ parse_repositories (fun _ => "detail")
        (fun _ => [⟨some "author", none, "alice"⟩,
          ⟨none, some "repo stats language", "Go\n80%"⟩,
          ⟨none, some "repo stats language", "Python\n20%"⟩])
        [⟨["v-align-middle"], some "/alice/repo", none⟩] []
      = .ok [.obj [("url", .str "https://github.com/alice/repo"),
          ("extras", .obj [("owner", .str "alice"),
            ("language_stats", .obj [("Go", .str "80"), ("Python", .str "20")])])]] := by
  exact ⟨rfl, rfl⟩

theorem parseReposGo_link_order (fetch : String → String)
    (parseDetail : String → List Element) :
    ∀ (links : List Anchor) (items out : List Json),
      parseReposGo fetch parseDetail links items = .ok out →
      out = items ++ links.map (repoItemOf fetch parseDetail) := by
  intro links
  induction links with
  | nil =>
    intro items out h
    simp only [parseReposGo] at h
    cases h
    simp
  | cons a rest ih =>
    intro items out h
    simp only [parseReposGo] at h
    cases hx : get_extras parseDetail (fetch (githubSearchItemUrl (a.href.getD ""))) with
    | error e =>
      rw [hx] at h
      exact absurd h (by simp)
    | ok extras =>
      rw [hx] at h
      have h2 := ih (items ++ [itemToDict (githubSearchItemUrl (a.href.getD "")) extras]) out h
      rw [h2]
      simp only [repoItemOf, hx, List.map_cons, List.append_assoc, List.singleton_append]
      rfl

/-- C7 amended: detail-page fetches in repository extraction run
sequentially — each is awaited before the next link is processed — and on
success the items are appended to the aggregate exactly in the page order
of the filtered links, deterministically in the page and the fetched
bodies. -/
theorem parse_repositories_link_order :
    ∀ (fetch : String → String) (parseDetail : String → List Element)
      (data : List Anchor) (items out : List Json),
      parse_repositories fetch parseDetail data items = .ok out →
      out = items ++ (data.filter repoLinkFilter).map (repoItemOf fetch parseDetail) := by
  intro fetch parseDetail data items out h
  exact parseReposGo_link_order fetch parseDetail (data.filter repoLinkFilter) items out h

/-- Witness for C7's amended claim at a concrete one-link page. -/
theorem parse_repositories_link_order_witness :
    [Json.obj [("url", .str "https://github.com/alice/repo"),
        ("extras", .obj [("owner", .str "alice"), ("language_stats", .obj [])])]]
      = ([] : List Json)
        ++ ([⟨["v-align-middle"], some "/alice/repo", none⟩].filter repoLinkFilter).map
            (repoItemOf (fun _ => "d") (fun _ => [⟨some "author", none, "alice"⟩])) :=
  parse_repositories_link_order (fun _ => "d") (fun _ => [⟨some "author", none, "alice"⟩])
    [⟨["v-align-middle"], some "/alice/repo", none⟩] []
    [Json.obj [("url", .str "https://github.com/alice/repo"),
        ("extras", .obj [("owner", .str "alice"), ("language_stats", .obj [])])]]
    rfl

/-- C7 counterexample: the spec claims the repository path appends items in
the completion order of concurrent per-link fetches, non-deterministic
relative to link order. In the code the loop awaits each fetch before
touching the next link, so no execution of `parse_repositories` — under any
fetch behaviour whatsoever — can produce an output that deviates from the
page order of the links. -/
theorem parse_repositories_no_reordering :
    ¬ ∃ (fetch : String → String) (parseDetail : String → List Element)
        (data : List Anchor) (items out : List Json),
        parse_repositories fetch parseDetail data items = .ok out
        ∧ out ≠ items ++ (data.filter repoLinkFilter).map (repoItemOf fetch parseDetail) := by
  rintro ⟨fetch, parseDetail, data, items, out, h, hne⟩
  exact hne (parseReposGo_link_order fetch parseDetail (data.filter repoLinkFilter) items out h)

/-- C8: proxy selection with an empty configured set always yields none;
with a non-empty set every call yields `https://` ++ the element at the
drawn index, which is always one of the configured proxies; and every
configured proxy is reachable by some draw (positive probability under the
uniform external RNG). -/
theorem proxy_selection_spec :
    ∀ (proxies : List String) (choice : Nat),
      (proxies = [] → proxy proxies choice = none)
      ∧ (proxies ≠ [] →
          proxy proxies choice
              = some ("https://" ++ proxies.getD (choice % proxies.length) "")
            ∧ proxies.getD (choice % proxies.length) "" ∈ proxies)
      ∧ (∀ p ∈ proxies, ∃ j, proxy proxies j = some ("https://" ++ p)) := by
  intro ps i
  refine ⟨?_, ?_, ?_⟩
  · intro h
    subst h
    rfl
  · intro h
    obtain ⟨a, as, rfl⟩ := List.exists_cons_of_ne_nil h
    have hlt : i % (a :: as).length < (a :: as).length :=
      Nat.mod_lt _ (by simp)
    refine ⟨rfl, ?_⟩
    rw [List.getD_eq_getElem (a :: as) "" hlt]
    exact List.getElem_mem hlt
  · intro p hp
    obtain ⟨n, hn, hne⟩ := List.getElem_of_mem hp
    have hcons : ps ≠ [] := List.ne_nil_of_mem hp
    obtain ⟨a, as, rfl⟩ := List.exists_cons_of_ne_nil hcons
    refine ⟨n, ?_⟩
    have hmod : n % (a :: as).length = n := Nat.mod_eq_of_lt hn
    show proxy (a :: as) n = some ("https://" ++ p)
    unfold proxy
    simp only [List.isEmpty_cons, if_neg]
    rw [hmod, List.getD_eq_getElem (a :: as) "" hn, hne]
    simp

/-- Witness for C8 at concrete proxy sets: the empty set yields none, the
set `["p1", "p2"]` with draw 1 yields `https://p2`, and `p2` is reachable
by some draw. -/
theorem proxy_selection_spec_witness :
    proxy [] 5 = none
    ∧ proxy ["p1", "p2"] 1 = some "https://p2"
    ∧ ∃ j, proxy ["p1", "p2"] j = some "https://p2" := by
  refine ⟨(proxy_selection_spec [] 5).1 rfl, ?_, ?_⟩
  · exact ((proxy_selection_spec ["p1", "p2"] 1).2.1 (by decide)).1
  · exact (proxy_selection_spec ["p1", "p2"] 0).2.2 "p2" (by decide)

theorem resolve_path_ok (fs : FS) (fp : Option String)
    (h : osPathExists fs (targetPath fp OUTPUT_FILE_PATH) = true) :
    _resolve_default_path OUTPUT_FILE_PATH fp fs = .ok (targetPath fp OUTPUT_FILE_PATH) := by
  unfold targetPath at h ⊢
  unfold _resolve_default_path
  cases htr : pyTruthyStr fp with
  | true =>
    rw [htr] at h
    simp at h
    simp [htr, h]
  | false =>
    rw [htr] at h
    simp at h
    simp [htr, h]

theorem resolve_path_err (fs : FS) (fp : Option String)
    (h : osPathExists fs (targetPath fp OUTPUT_FILE_PATH) = false) :
    ∃ m, _resolve_default_path OUTPUT_FILE_PATH fp fs = .error (.fileNotFound m) := by
  unfold targetPath at h
  unfold _resolve_default_path
  cases htr : pyTruthyStr fp with
  | true =>
    rw [htr] at h
    simp at h
    refine ⟨"File " ++ fp.getD "" ++ " does not exist", ?_⟩
    simp [htr, h]
  | false =>
    rw [htr] at h
    simp at h
    refine ⟨"File " ++ OUTPUT_FILE_PATH ++ " does not exist. Please provide a valid path", ?_⟩
    simp [htr, h]

theorem resolve_path_ok_inv (fs : FS) (fp : Option String) (path : String)
    (h : _resolve_default_path OUTPUT_FILE_PATH fp fs = .ok path) :
    path = targetPath fp OUTPUT_FILE_PATH ∧ osPathExists fs path = true := by
  unfold _resolve_default_path at h
  unfold targetPath
  cases htr : pyTruthyStr fp with
  | true =>
    rw [htr] at h
    simp at h
    cases hex : osPathExists fs (fp.getD "") with
    | true => rw [hex] at h; simp at h; simp [htr, ← h, hex]
    | false => rw [hex] at h; simp at h
  | false =>
    rw [htr] at h
    simp at h
    cases hex : osPathExists fs OUTPUT_FILE_PATH with
    | true => rw [hex] at h; simp at h; simp [htr, ← h, hex]
    | false => rw [hex] at h; simp at h

theorem writeFileWPlus_existing_ok (fs : FS) (p c : String)
    (hd : dirExists fs p = false) (hf : fileExists fs p = true)
    (hw : fs.writable p = true) :
    writeFileWPlus fs p c = .ok { fs with files := updateAssoc fs.files p c } := by
  unfold writeFileWPlus
  simp [hd, hf, hw]

theorem writeFileWPlus_ok_inv (fs : FS) (p c : String) (fs2 : FS)
    (h : writeFileWPlus fs p c = .ok fs2) :
    dirExists fs p = false
    ∧ ((fileExists fs p = true ∧ fs.writable p = true
          ∧ fs2 = { fs with files := updateAssoc fs.files p c })
      ∨ (fileExists fs p = false ∧ dirExists fs (parentDir p) = true
          ∧ fs.writable (parentDir p) = true
          ∧ fs2 = { fs with files := fs.files ++ [(p, c)] })) := by
  unfold writeFileWPlus at h
  cases hd : dirExists fs p with
  | true => rw [hd] at h; simp at h
  | false =>
    rw [hd] at h
    refine ⟨rfl, ?_⟩
    simp only [Bool.false_eq_true, if_false] at h
    cases hf : fileExists fs p with
    | true =>
      rw [hf] at h
      simp only [if_true] at h
      cases hw : fs.writable p with
      | true => rw [hw] at h; simp at h; exact Or.inl ⟨rfl, rfl, h.symm⟩
      | false => rw [hw] at h; simp at h
    | false =>
      rw [hf] at h
      simp only [Bool.false_eq_true, if_false] at h
      cases hpd : dirExists fs (parentDir p) with
      | true =>
        rw [hpd] at h
        simp only [Bool.not_true, Bool.false_eq_true, if_false] at h
        cases hw : fs.writable (parentDir p) with
        | true => rw [hw] at h; simp at h; exact Or.inr ⟨rfl, rfl, rfl, h.symm⟩
        | false => rw [hw] at h; simp at h
      | false =>
        rw [hpd] at h
        simp at h

theorem find_updateAssoc (p c : String) :
    ∀ (l : List (String × String)), l.any (fun q => q.1 == p) = true →
      (updateAssoc l p c).find? (fun q => q.1 == p) = some (p, c) := by
  intro l
  induction l with
  | nil => intro h; simp at h
  | cons a t ih =>
    intro h
    unfold updateAssoc
    cases hb : (a.1 == p) with
    | true =>
      simp only [List.map_cons, hb, if_true]
      simp [List.find?]
    | false =>
      simp only [List.map_cons, hb, Bool.false_eq_true, if_false]
      rw [List.find?_cons_of_neg _ (by simp [hb])]
      have ht : t.any (fun q => q.1 == p) = true := by
        simp only [List.any_cons, hb, Bool.false_or] at h
        exact h
      exact ih ht

theorem lookupFile_update (fs : FS) (p c : String) (hf : fileExists fs p = true) :
    lookupFile { fs with files := updateAssoc fs.files p c } p = some c := by
  unfold lookupFile
  rw [find_updateAssoc p c fs.files hf]
  rfl

/-- C3 counterexample: on a filesystem where the destination's parent
directory `resources` exists and every path is writable but the destination
file `resources/output.json` does not exist, the writer does not succeed —
it fails with FileNotFoundError — contradicting the claim that an I/O error
occurs exactly when the parent is missing or unwritable. -/
theorem write_items_fails_despite_writable_parent :
    write_items [] none ⟨["resources"], [], fun _ => true⟩
        = .error (.fileNotFound
            "File resources/output.json does not exist. Please provide a valid path")
    ∧ dirExists ⟨["resources"], [], fun _ => true⟩
        (parentDir (targetPath none OUTPUT_FILE_PATH)) = true
    ∧ FS.writable ⟨["resources"], [], fun _ => true⟩
        (parentDir (targetPath none OUTPUT_FILE_PATH)) = true :=
  ⟨rfl, rfl, rfl⟩

/-- C3 amended: the output writer serializes the full aggregate as a single
pretty-printed JSON array to the destination path, overwriting existing
content, and it succeeds exactly when the destination path is an existing
writable file (not a directory); in every other case — in particular
whenever the destination file does not exist, regardless of the parent
directory — it fails with an I/O error. -/
theorem write_items_success_iff_file_exists :
    ∀ (fs : FS) (items : List Json) (fp : Option String),
      ((∃ fs2, write_items items fp fs = .ok fs2)
        ↔ (dirExists fs (targetPath fp OUTPUT_FILE_PATH) = false
            ∧ fileExists fs (targetPath fp OUTPUT_FILE_PATH) = true
            ∧ fs.writable (targetPath fp OUTPUT_FILE_PATH) = true))
      ∧ (∀ fs2, write_items items fp fs = .ok fs2 →
          fs2 = { fs with files := (updateAssoc fs.files (targetPath fp OUTPUT_FILE_PATH)
                    (json_dumps_indent4 (.arr items))) }) := by
  intro fs items fp
  have main : ∀ fs2, write_items items fp fs = .ok fs2 →
      dirExists fs (targetPath fp OUTPUT_FILE_PATH) = false
      ∧ fileExists fs (targetPath fp OUTPUT_FILE_PATH) = true
      ∧ fs.writable (targetPath fp OUTPUT_FILE_PATH) = true
      ∧ fs2 = { fs with files := (updateAssoc fs.files (targetPath fp OUTPUT_FILE_PATH)
                  (json_dumps_indent4 (.arr items))) } := by
    intro fs2 h
    unfold write_items at h
    cases hres : _resolve_default_path OUTPUT_FILE_PATH fp fs with
    | error e => rw [hres] at h; exact absurd h (by simp)
    | ok path =>
      rw [hres] at h
      obtain ⟨hpath, hex⟩ := resolve_path_ok_inv fs fp path hres
      subst hpath
      obtain ⟨hd, hcase⟩ := writeFileWPlus_ok_inv fs _ _ fs2 h
      cases hcase with
      | inl hc => exact ⟨hd, hc.1, hc.2.1, hc.2.2⟩
      | inr hc =>
        unfold osPathExists at hex
        rw [hc.1, hd] at hex
        simp at hex
  constructor
  · constructor
    · rintro ⟨fs2, h⟩
      obtain ⟨hd, hf, hw, _⟩ := main fs2 h
      exact ⟨hd, hf, hw⟩
    · rintro ⟨hd, hf, hw⟩
      refine ⟨{ fs with files := (updateAssoc fs.files (targetPath fp OUTPUT_FILE_PATH)
        (json_dumps_indent4 (.arr items))) }, ?_⟩
      unfold write_items
      rw [resolve_path_ok fs fp (by unfold osPathExists; rw [hf]; rfl)]
      exact writeFileWPlus_existing_ok fs _ _ hd hf hw
  · intro fs2 h
    exact (main fs2 h).2.2.2

/-- Witness for C3's amended claim: on a filesystem where the destination
file exists and is writable the writer succeeds, and its result replaces
the old content by the serialized (empty) aggregate. -/
theorem write_items_success_iff_file_exists_witness :
    (∃ fs2, write_items [] none
        ⟨["resources"], [("resources/output.json", "old")], fun _ => true⟩ = .ok fs2)
    ∧ (⟨["resources"], [("resources/output.json", "[]")], fun _ => true⟩ : FS)
      = { (⟨["resources"], [("resources/output.json", "old")], fun _ => true⟩ : FS) with
          files := (updateAssoc [("resources/output.json", "old")]
            (targetPath none OUTPUT_FILE_PATH) (json_dumps_indent4 (.arr []))) } := by
  constructor
  · exact (write_items_success_iff_file_exists
      ⟨["resources"], [("resources/output.json", "old")], fun _ => true⟩ [] none).1.mpr
      ⟨rfl, rfl, rfl⟩
  · exact (write_items_success_iff_file_exists
      ⟨["resources"], [("resources/output.json", "old")], fun _ => true⟩ [] none).2
      ⟨["resources"], [("resources/output.json", "[]")], fun _ => true⟩ rfl

/-- C10: whenever the destination path does not exist the writer fails with
a file-not-found error before anything is written (no parent-directory
condition is involved), and whenever it succeeds the destination file
already existed and now holds exactly the pretty-printed JSON array of the
items — truncated and overwritten. -/
theorem write_items_requires_existing_file :
    ∀ (fs : FS) (items : List Json) (fp : Option String),
      (osPathExists fs (targetPath fp OUTPUT_FILE_PATH) = false →
        ∃ m, write_items items fp fs = .error (.fileNotFound m))
      ∧ (∀ fs2, write_items items fp fs = .ok fs2 →
          fileExists fs (targetPath fp OUTPUT_FILE_PATH) = true
          ∧ lookupFile fs2 (targetPath fp OUTPUT_FILE_PATH)
              = some (json_dumps_indent4 (.arr items))) := by
  intro fs items fp
  constructor
  · intro h
    obtain ⟨m, hm⟩ := resolve_path_err fs fp h
    refine ⟨m, ?_⟩
    unfold write_items
    rw [hm]
  · intro fs2 h
    unfold write_items at h
    cases hres : _resolve_default_path OUTPUT_FILE_PATH fp fs with
    | error e => rw [hres] at h; exact absurd h (by simp)
    | ok path =>
      rw [hres] at h
      obtain ⟨hpath, hex⟩ := resolve_path_ok_inv fs fp path hres
      subst hpath
      obtain ⟨hd, hcase⟩ := writeFileWPlus_ok_inv fs _ _ fs2 h
      cases hcase with
      | inl hc =>
        refine ⟨hc.1, ?_⟩
        rw [hc.2.2]
        exact lookupFile_update fs _ _ hc.1
      | inr hc =>
        unfold osPathExists at hex
        rw [hc.1, hd] at hex
        simp at hex

/-- Witness for C10: with no file at the destination the writer errors with
FileNotFoundError even though nothing else is wrong; with the destination
file present it succeeds and the file afterwards holds the serialized empty
aggregate `[]`. -/
theorem write_items_requires_existing_file_witness :
    (∃ m, write_items [] none ⟨["resources"], [], fun _ => true⟩
        = .error (.fileNotFound m))
    ∧ (fileExists ⟨["resources"], [("resources/output.json", "old")], fun _ => true⟩
          (targetPath none OUTPUT_FILE_PATH) = true
        ∧ lookupFile ⟨["resources"], [("resources/output.json", "[]")], fun _ => true⟩
            (targetPath none OUTPUT_FILE_PATH) = some (json_dumps_indent4 (.arr []))) := by
  constructor
  · exact (write_items_requires_existing_file
      ⟨["resources"], [], fun _ => true⟩ [] none).1 rfl
  · exact (write_items_requires_existing_file
      ⟨["resources"], [("resources/output.json", "old")], fun _ => true⟩ [] none).2
      ⟨["resources"], [("resources/output.json", "[]")], fun _ => true⟩ rfl
